import Mathlib

/-! Verification of the job-hunt connector registry and pipeline engine. -/

/-- Kind of a connector capability: extraction source or load destination. -/
inductive ConnectorType where
  | source
  | destination
deriving DecidableEq, Repr

/-- Static metadata describing a named connector capability. -/
structure Connector where
  name : String
  type : ConnectorType
  description : String
  supportsDDL : Bool
  maxParallel : Nat
deriving DecidableEq, Repr

/-- One record transferred from source to destination. -/
structure Record where
  id : Nat
  payload : String
deriving DecidableEq, Repr

/-- Configuration map supplied per pipeline side; Go uses `map[string]string`,
whose absent keys read as the zero value `""`. -/
abbrev ConfigMap := List (String × String)

/-- Reads a configuration key; a missing key yields `""` exactly as a Go map does. -/
def lookupConfig (config : ConfigMap) (key : String) : String :=
  match config.find? (fun p => p.1 == key) with
  | some p => p.2
  | none => ""

/-- Embeds `ensureRequiredFields`: the first required key whose value is empty in
the configuration produces a missing-field error. -/
def ensureRequiredFields (required : List String) (config : ConfigMap) : Except String Unit :=
  match required with
  | [] => .ok ()
  | key :: rest =>
    if lookupConfig config key = "" then
      .error ("missing required config " ++ key)
    else
      ensureRequiredFields rest config

/-- Embeds `simpleSource`: descriptor, required-field contract and fixed sample size. -/
structure SimpleSource where
  meta : Connector
  required : List String
  sampleRecords : Nat
deriving DecidableEq, Repr

/-- Embeds `simpleDestination`: descriptor and required-field contract. -/
structure SimpleDestination where
  meta : Connector
  required : List String
deriving DecidableEq, Repr

/-- Embeds the `Registry` struct: the catalogs of sources and destinations. -/
structure Registry where
  sources : List SimpleSource
  destinations : List SimpleDestination
deriving DecidableEq, Repr

/-- Shared relational required-field contract. -/
def dbFields : List String := ["host", "port", "user", "password", "database"]

/-- Embeds `NewRegistry`: four sources (mysql, postgres, sqlserver, iceberg) and
three destinations (mysql, postgres, sqlserver); no iceberg destination exists. -/
def NewRegistry : Registry :=
  { sources := [
      ⟨⟨"mysql", .source, "High-speed MySQL binlog reader", true, 8⟩, dbFields, 50⟩,
      ⟨⟨"postgres", .source, "Logical replication with parallel snapshot", true, 8⟩, dbFields, 50⟩,
      ⟨⟨"sqlserver", .source, "SQL Server CDC with snapshot fallback", true, 4⟩, dbFields, 50⟩,
      ⟨⟨"iceberg", .source, "Snapshot reads over Apache Iceberg metadata", false, 6⟩,
        ["catalog", "table", "warehouse"], 30⟩],
    destinations := [
      ⟨⟨"mysql", .destination, "Batch inserts with parallel writers", true, 8⟩, dbFields⟩,
      ⟨⟨"postgres", .destination, "COPY protocol with conflict handling", true, 8⟩, dbFields⟩,
      ⟨⟨"sqlserver", .destination, "Bulk copy optimized for columnstore", true, 4⟩, dbFields⟩] }

/-- Embeds `Registry.SourceByName`: name lookup in the source catalog. -/
def SourceByName (r : Registry) (name : String) : Except String SimpleSource :=
  match r.sources.find? (fun s => s.meta.name == name) with
  | some s => .ok s
  | none => .error ("unknown source connector " ++ name)

/-- Embeds `Registry.DestinationByName`: name lookup in the destination catalog. -/
def DestinationByName (r : Registry) (name : String) : Except String SimpleDestination :=
  match r.destinations.find? (fun d => d.meta.name == name) with
  | some d => .ok d
  | none => .error ("unknown destination connector " ++ name)

/-- Embeds `ValidateConnectorPair`: kinds must match, and the iceberg restriction
fires only when both names equal "iceberg". -/
def ValidateConnectorPair (src : Connector) (dst : Connector) : Except String Unit :=
  if src.type ≠ ConnectorType.source ∨ dst.type ≠ ConnectorType.destination then
    .error "invalid connector pairing"
  else if src.name = dst.name ∧ src.name = "iceberg" then
    .error "iceberg cannot be a destination"
  else
    .ok ()

/-- Record emitted at index `i` by the producer loop of `produceFakeRecords`. -/
def mkRec (i : Nat) : Record := ⟨i + 1, "record-" ++ toString (i + 1)⟩

/-- Full sequence an uncancelled `produceFakeRecords` pushes through its channel. -/
def fakeRecords (n : Nat) : List Record := (List.range n).map mkRec

/-- Joint state of the producer goroutine (`produceFakeRecords`), the tee
goroutine (`Tee`), the consumer (`drainRecords`), and the shared counter. -/
structure TransferState where
  produced : Nat
  prodClosed : Bool
  teeHold : Option Record
  teeClosed : Bool
  counter : Nat
  forwarded : List Record
  cancelled : Bool
  consumerResult : Option (Option String)
deriving DecidableEq, Repr

/-- State before any goroutine has run. -/
def initTransfer : TransferState := ⟨0, false, none, false, 0, [], false, none⟩

/-- Interleaved small-step semantics of the extract / tee / load chain for a
source of sample size `n`. `cancel` models the run context being cancelled;
`handoff` is the rendezvous on the producer channel combined with the counter
increment in the tee (the tee counts before it forwards); `teeForward` is the
rendezvous on the tee channel delivering a record to the load stage;
`prodClose`/`teeClose` are the respective channel closes; the consumer either
observes the closed stream (`consumerOk`, returning nil) or the cancelled
context (`consumerCancelled`, returning the context error) - both select
branches are enabled whenever their channel condition holds, mirroring the
nondeterministic select of Go. -/
inductive TransferStep (n : Nat) : TransferState → TransferState → Prop where
  | cancel (s : TransferState) :
      s.cancelled = false →
      TransferStep n s { s with cancelled := true }
  | handoff (s : TransferState) :
      s.prodClosed = false → s.produced < n → s.teeHold = none → s.teeClosed = false →
      TransferStep n s { s with
        produced := s.produced + 1,
        teeHold := some (mkRec s.produced),
        counter := s.counter + 1 }
  | prodClose (s : TransferState) :
      s.prodClosed = false → (s.cancelled = true ∨ s.produced = n) →
      TransferStep n s { s with prodClosed := true }
  | teeForward (s : TransferState) (r : Record) :
      s.teeHold = some r → s.teeClosed = false → s.consumerResult = none →
      TransferStep n s { s with teeHold := none, forwarded := s.forwarded ++ [r] }
  | teeClose (s : TransferState) :
      s.prodClosed = true → s.teeHold = none → s.teeClosed = false →
      TransferStep n s { s with teeClosed := true }
  | consumerOk (s : TransferState) :
      s.consumerResult = none → s.teeClosed = true →
      TransferStep n s { s with consumerResult := some none }
  | consumerCancelled (s : TransferState) :
      s.consumerResult = none → s.cancelled = true →
      TransferStep n s { s with consumerResult := some (some "context canceled") }

/-- Reachable states of one transfer with sample size `n`. -/
def TransferReach (n : Nat) (s : TransferState) : Prop :=
  Relation.ReflTransGen (TransferStep n) initTransfer s

/-- Observable outcome of the load stage: the consumer returned `err`, and the
counter is read (racily, at any moment at or after the return) as `records`;
`cancelled` records whether the run context was cancelled. -/
def TransferOutcome (n records : Nat) (err : Option String) (cancelled : Bool) : Prop :=
  ∃ s, TransferReach n s ∧ s.consumerResult = some err ∧
    s.counter = records ∧ s.cancelled = cancelled

/-- Embeds the pipeline `Config` struct. -/
structure Config where
  name : String
  sourceType : String
  sourceConfig : ConfigMap
  destType : String
  destConfig : ConfigMap
deriving DecidableEq, Repr

/-- Pipeline store: the `map[string]Config` guarded by the service lock. -/
abbrev Store := List (String × Config)

/-- Map read `s.store[name]`. -/
def storeGet (st : Store) (name : String) : Option Config :=
  match st.find? (fun p => p.1 == name) with
  | some p => some p.2
  | none => none

/-- Map write `s.store[name] = cfg`: overwrite when present, append otherwise. -/
def storeInsert (st : Store) (key : String) (cfg : Config) : Store :=
  if st.any (fun p => p.1 == key) then
    st.map (fun p => if p.1 == key then (key, cfg) else p)
  else
    st ++ [(key, cfg)]

/-- Whitespace test used by `strings.TrimSpace`, i.e. `unicode.IsSpace`: the
Unicode White_Space code points U+0009-U+000D, U+0020, U+0085, U+00A0, U+1680,
U+2000-U+200A, U+2028, U+2029, U+202F, U+205F and U+3000. -/
def goIsSpace (c : Char) : Bool :=
  let n := c.toNat
  (decide (0x9 ≤ n) && decide (n ≤ 0xD)) || n == 0x20 || n == 0x85 || n == 0xA0 ||
    n == 0x1680 || (decide (0x2000 ≤ n) && decide (n ≤ 0x200A)) || n == 0x2028 ||
    n == 0x2029 || n == 0x202F || n == 0x205F || n == 0x3000

/-- Embeds `validatePipelineName`: `strings.TrimSpace(name) == ""` holds exactly
when every character of the name satisfies `unicode.IsSpace`. -/
def validatePipelineName (name : String) : Except String Unit :=
  if name.toList.all goIsSpace then
    .error "pipeline name is required"
  else
    .ok ()

/-- Embeds `Service.connectorsFor`: resolve both capability names, then re-run
the pairing validation. -/
def connectorsFor (reg : Registry) (cfg : Config) :
    Except String (SimpleSource × SimpleDestination) :=
  match SourceByName reg cfg.sourceType with
  | .error e => .error e
  | .ok src =>
    match DestinationByName reg cfg.destType with
    | .error e => .error e
    | .ok dst =>
      match ValidateConnectorPair src.meta dst.meta with
      | .error e => .error e
      | .ok _ => .ok (src, dst)

/-- Embeds `Service.Create`: name check, resolve + pairing check, source config
validation, destination config validation, and only then the store write. The
returned pair is (error outcome, store afterwards). -/
def Service.Create (reg : Registry) (st : Store) (cfg : Config) :
    Except String Unit × Store :=
  match validatePipelineName cfg.name with
  | .error e => (.error e, st)
  | .ok _ =>
    match connectorsFor reg cfg with
    | .error e => (.error e, st)
    | .ok (src, dst) =>
      match ensureRequiredFields src.required cfg.sourceConfig with
      | .error e => (.error e, st)
      | .ok _ =>
        match ensureRequiredFields dst.required cfg.destConfig with
        | .error e => (.error e, st)
        | .ok _ => (.ok (), storeInsert st cfg.name cfg)

/-- Embeds `Service.List`: collect the stored configs and sort them by name;
the second component is the store afterwards (the method only reads it). -/
def Service.ListPipelines (st : Store) : List Config × Store :=
  (List.insertionSort (fun a b => a.name ≤ b.name) (st.map Prod.snd), st)

/-- Embeds the `Result` struct; `finishedAt` abstracts the timestamp to
"has been stamped". -/
structure Result where
  pipelineName : String
  records : Nat
  error : String
  finishedAt : Bool
deriving DecidableEq, Repr

/-- Folds the Go `loadErr` into the error string of the result: `""` when nil. -/
def errString : Option String → String
  | none => ""
  | some e => e

/-- Embeds `Service.Run` as a relation from inputs to the returned `Result`
(a relation because the transfer stage is concurrent and nondeterministic).
`notFound`: missing pipeline. `resolveErr`: `connectorsFor` failed (unknown
connector or pairing). `extractErr`: `Extract` re-validated the source config
and failed before any goroutine started. `loadValidateErr`: `Load` re-validated
the destination config and failed; the already-started tee may have counted at
most one record before the counter is read. `ran`: the full concurrent
transfer executed and the counter was read after `Load` returned. -/
inductive RunOutcome (reg : Registry) (st : Store) (name : String) (cancelled : Bool) :
    Result → Prop where
  | notFound :
      storeGet st name = none →
      RunOutcome reg st name cancelled ⟨name, 0, "pipeline not found", true⟩
  | resolveErr (cfg : Config) (e : String) :
      storeGet st name = some cfg →
      connectorsFor reg cfg = .error e →
      RunOutcome reg st name cancelled ⟨name, 0, e, true⟩
  | extractErr (cfg : Config) (src : SimpleSource) (dst : SimpleDestination) (e : String) :
      storeGet st name = some cfg →
      connectorsFor reg cfg = .ok (src, dst) →
      ensureRequiredFields src.required cfg.sourceConfig = .error e →
      RunOutcome reg st name cancelled ⟨name, 0, e, true⟩
  | loadValidateErr (cfg : Config) (src : SimpleSource) (dst : SimpleDestination)
      (e : String) (k : Nat) :
      storeGet st name = some cfg →
      connectorsFor reg cfg = .ok (src, dst) →
      ensureRequiredFields src.required cfg.sourceConfig = .ok () →
      ensureRequiredFields dst.required cfg.destConfig = .error e →
      k ≤ 1 →
      RunOutcome reg st name cancelled ⟨name, k, e, true⟩
  | ran (cfg : Config) (src : SimpleSource) (dst : SimpleDestination)
      (records : Nat) (err : Option String) :
      storeGet st name = some cfg →
      connectorsFor reg cfg = .ok (src, dst) →
      ensureRequiredFields src.required cfg.sourceConfig = .ok () →
      ensureRequiredFields dst.required cfg.destConfig = .ok () →
      TransferOutcome src.sampleRecords records err cancelled →
      RunOutcome reg st name cancelled ⟨name, records, errString err, true⟩

/-- Fully valid relational configuration used by concrete scenarios. -/
def fullDb : ConfigMap :=
  [("host", "h"), ("port", "5432"), ("user", "u"), ("password", "pw"), ("database", "db")]

/-- Scenario A pipeline: relational source "mysql" into destination "postgres". -/
def cfgMP : Config := ⟨"nightly-sync", "mysql", fullDb, "postgres", fullDb⟩

/-- Scenario B pipeline: iceberg on both sides, with well-formed configs. -/
def cfgIceIce : Config :=
  ⟨"ice-sync", "iceberg", [("catalog", "c"), ("table", "t"), ("warehouse", "w")],
    "iceberg", [("catalog", "c"), ("table", "t"), ("warehouse", "w")]⟩

/-- Scenario C pipeline: source configuration missing the "password" field. -/
def cfgMissingPw : Config :=
  ⟨"s", "mysql", [("host", "h"), ("port", "1"), ("user", "u"), ("database", "d")],
    "postgres", fullDb⟩

/-- Transfer state reached when the run is cancelled after one record was
forwarded to the load stage while a second record is already counted and held
by the tee. -/
def cexState : TransferState :=
  ⟨2, false, some (mkRec 1), false, 2, [mkRec 0], true, some (some "context canceled")⟩

/-- Registry value holding an iceberg capability on both sides; exercises the
pairing re-validation inside the run resolve stage. -/
def icebergDualRegistry : Registry :=
  { sources := [⟨⟨"iceberg", .source, "Snapshot reads over Apache Iceberg metadata", false, 6⟩,
      ["catalog", "table", "warehouse"], 30⟩],
    destinations := [⟨⟨"iceberg", .destination, "direct Iceberg writes", false, 6⟩,
      ["catalog", "table", "warehouse"]⟩] }

/-- Pipeline config pairing the two iceberg capabilities of `icebergDualRegistry`. -/
def icebergCfg : Config :=
  ⟨"ice", "iceberg", [("catalog", "c"), ("table", "t"), ("warehouse", "w")],
    "iceberg", [("catalog", "c"), ("table", "t"), ("warehouse", "w")]⟩

/-- Invariant of the transfer machine: the counter equals the number of records
the tee has accepted; accepted records are exactly the produced prefix of the
fake stream, split between the forwarded list and the at-most-one held record;
the close/finish flags respect their causal order. -/
def transferInv (n : Nat) (s : TransferState) : Prop :=
  s.produced ≤ n ∧
  s.counter = s.produced ∧
  s.forwarded ++ s.teeHold.toList = (fakeRecords n).take s.produced ∧
  (s.prodClosed = true → s.cancelled = true ∨ s.produced = n) ∧
  (s.teeClosed = true → s.prodClosed = true ∧ s.teeHold = none) ∧
  (s.consumerResult = some none → s.teeClosed = true) ∧
  (∀ e, s.consumerResult = some (some e) → s.cancelled = true ∧ e = "context canceled")

lemma fakeRecords_length (n : Nat) : (fakeRecords n).length = n := by
  simp [fakeRecords]

lemma fakeRecords_getElem? {p n : Nat} (h : p < n) :
    (fakeRecords n)[p]? = some (mkRec p) := by
  simp [fakeRecords, List.getElem?_range, h]

lemma fakeRecords_take_succ {p n : Nat} (h : p < n) :
    (fakeRecords n).take (p + 1) = (fakeRecords n).take p ++ [mkRec p] := by
  rw [List.take_succ, fakeRecords_getElem? h]
  rfl

lemma fakeRecords_take_all (n : Nat) : (fakeRecords n).take n = fakeRecords n :=
  List.take_of_length_le (le_of_eq (fakeRecords_length n))

lemma transferInv_init (n : Nat) : transferInv n initTransfer := by
  refine ⟨Nat.zero_le n, rfl, rfl, ?_, ?_, ?_, ?_⟩ <;> simp [initTransfer]

lemma transferInv_step {n : Nat} {s s' : TransferState}
    (hstep : TransferStep n s s') (hinv : transferInv n s) : transferInv n s' := by
  obtain ⟨h1, h2, h3, h4, h5, h6, h7⟩ := hinv
  cases hstep with
  | cancel hc =>
      exact ⟨h1, h2, h3, fun _ => Or.inl rfl, h5, h6, fun e he => ⟨rfl, (h7 e he).2⟩⟩
  | handoff hp hlt hh ht =>
      refine ⟨hlt, by simpa using h2, ?_, ?_, ?_, ?_, h7⟩
      · show s.forwarded ++ [mkRec s.produced] = (fakeRecords n).take (s.produced + 1)
        rw [fakeRecords_take_succ hlt]
        rw [hh] at h3
        simpa using congrArg (· ++ [mkRec s.produced]) h3
      · intro hcl
        exact absurd hcl (by simp [hp])
      · intro hcl
        exact absurd hcl (by simp [ht])
      · intro hc
        exact absurd (h6 hc) (by simp [ht])
  | prodClose hp hor =>
      exact ⟨h1, h2, h3, fun _ => hor, fun htc => ⟨rfl, (h5 htc).2⟩, h6, h7⟩
  | teeForward r hh ht hc =>
      refine ⟨h1, h2, ?_, h4, fun htc => ⟨(h5 htc).1, rfl⟩, ?_, ?_⟩
      · show (s.forwarded ++ [r]) ++ [] = (fakeRecords n).take s.produced
        rw [hh] at h3
        simpa using h3
      · intro hcr
        rw [show ({ s with teeHold := none, forwarded := s.forwarded ++ [r]} :
          TransferState).consumerResult = s.consumerResult from rfl, hc] at hcr
        cases hcr
      · intro e hcr
        rw [show ({ s with teeHold := none, forwarded := s.forwarded ++ [r]} :
          TransferState).consumerResult = s.consumerResult from rfl, hc] at hcr
        cases hcr
  | teeClose hp hh ht =>
      exact ⟨h1, h2, h3, h4, fun _ => ⟨hp, hh⟩, fun _ => rfl, h7⟩
  | consumerOk hc ht =>
      refine ⟨h1, h2, h3, h4, h5, fun _ => ht, ?_⟩
      · intro e he
        simp at he
  | consumerCancelled hc hcan =>
      refine ⟨h1, h2, h3, h4, h5, ?_, ?_⟩
      · intro he
        simp at he
      · intro e he
        simp at he
        exact ⟨hcan, he.symm⟩

lemma transferInv_reach {n : Nat} {s : TransferState}
    (h : TransferReach n s) : transferInv n s := by
  induction h with
  | refl => exact transferInv_init n
  | tail _ hstep ih => exact transferInv_step hstep ih

lemma transfer_counter_split {n : Nat} {s : TransferState} (h : TransferReach n s) :
    s.counter = s.forwarded.length + s.teeHold.toList.length := by
  obtain ⟨h1, h2, h3, -, -, -, -⟩ := transferInv_reach h
  have hlen := congrArg List.length h3
  rw [List.length_append, List.length_take, fakeRecords_length] at hlen
  rw [h2, hlen]
  exact (Nat.min_eq_left h1).symm

lemma transfer_uncancelled_final {n : Nat} {s : TransferState} {err : Option String}
    (hr : TransferReach n s) (hc : s.consumerResult = some err)
    (hnc : s.cancelled = false) :
    err = none ∧ s.counter = n ∧ s.forwarded = fakeRecords n := by
  obtain ⟨h1, h2, h3, h4, h5, h6, h7⟩ := transferInv_reach hr
  cases err with
  | some e =>
      have := (h7 e hc).1
      rw [hnc] at this
      cases this
  | none =>
      have htee := h6 hc
      obtain ⟨hprod, hhold⟩ := h5 htee
      have hn : s.produced = n := by
        rcases h4 hprod with hcan | hdone
        · rw [hnc] at hcan; cases hcan
        · exact hdone
      refine ⟨rfl, by rw [h2, hn], ?_⟩
      rw [hhold] at h3
      simpa [hn, fakeRecords_take_all] using h3

lemma reach_ready (n : Nat) :
    ∀ k, k ≤ n →
      TransferReach n ⟨k, false, none, false, k, (fakeRecords n).take k, false, none⟩ := by
  intro k
  induction k with
  | zero =>
      intro _
      exact Relation.ReflTransGen.refl
  | succ k ih =>
      intro hk
      have hlt : k < n := hk
      have h1 := ih (Nat.le_of_succ_le hk)
      have s1 : TransferStep n
          ⟨k, false, none, false, k, (fakeRecords n).take k, false, none⟩
          ⟨k + 1, false, some (mkRec k), false, k + 1, (fakeRecords n).take k, false, none⟩ :=
        TransferStep.handoff _ rfl hlt rfl rfl
      have s2 : TransferStep n
          ⟨k + 1, false, some (mkRec k), false, k + 1, (fakeRecords n).take k, false, none⟩
          ⟨k + 1, false, none, false, k + 1, (fakeRecords n).take k ++ [mkRec k], false, none⟩ :=
        TransferStep.teeForward _ (mkRec k) rfl rfl rfl
      have h2 := Relation.ReflTransGen.tail (Relation.ReflTransGen.tail h1 s1) s2
      rw [fakeRecords_take_succ hlt]
      exact h2

lemma reach_done (n : Nat) :
    TransferReach n ⟨n, true, none, true, n, fakeRecords n, false, some none⟩ := by
  have h0 := reach_ready n n (Nat.le_refl n)
  rw [fakeRecords_take_all] at h0
  have s1 : TransferStep n
      ⟨n, false, none, false, n, fakeRecords n, false, none⟩
      ⟨n, true, none, false, n, fakeRecords n, false, none⟩ :=
    TransferStep.prodClose _ rfl (Or.inr rfl)
  have s2 : TransferStep n
      ⟨n, true, none, false, n, fakeRecords n, false, none⟩
      ⟨n, true, none, true, n, fakeRecords n, false, none⟩ :=
    TransferStep.teeClose _ rfl rfl rfl
  have s3 : TransferStep n
      ⟨n, true, none, true, n, fakeRecords n, false, none⟩
      ⟨n, true, none, true, n, fakeRecords n, false, some none⟩ :=
    TransferStep.consumerOk _ rfl rfl
  exact Relation.ReflTransGen.tail
    (Relation.ReflTransGen.tail (Relation.ReflTransGen.tail h0 s1) s2) s3

lemma transfer_completes (n : Nat) : TransferOutcome n n none false :=
  ⟨⟨n, true, none, true, n, fakeRecords n, false, some none⟩, reach_done n, rfl, rfl, rfl⟩

lemma transfer_cancelled_exists (n : Nat) :
    TransferOutcome n 0 (some "context canceled") true := by
  have s1 : TransferStep n initTransfer
      ⟨0, false, none, false, 0, [], true, none⟩ :=
    TransferStep.cancel _ rfl
  have s2 : TransferStep n
      ⟨0, false, none, false, 0, [], true, none⟩
      ⟨0, false, none, false, 0, [], true, some (some "context canceled")⟩ :=
    TransferStep.consumerCancelled _ rfl rfl
  exact ⟨_, Relation.ReflTransGen.tail (Relation.ReflTransGen.single s1) s2, rfl, rfl, rfl⟩

lemma cexState_reach : TransferReach 50 cexState := by
  have s1 : TransferStep 50 initTransfer
      ⟨1, false, some (mkRec 0), false, 1, [], false, none⟩ :=
    TransferStep.handoff _ rfl (by decide) rfl rfl
  have s2 : TransferStep 50
      ⟨1, false, some (mkRec 0), false, 1, [], false, none⟩
      ⟨1, false, none, false, 1, [mkRec 0], false, none⟩ :=
    TransferStep.teeForward _ (mkRec 0) rfl rfl rfl
  have s3 : TransferStep 50
      ⟨1, false, none, false, 1, [mkRec 0], false, none⟩
      ⟨2, false, some (mkRec 1), false, 2, [mkRec 0], false, none⟩ :=
    TransferStep.handoff _ rfl (by decide) rfl rfl
  have s4 : TransferStep 50
      ⟨2, false, some (mkRec 1), false, 2, [mkRec 0], false, none⟩
      ⟨2, false, some (mkRec 1), false, 2, [mkRec 0], true, none⟩ :=
    TransferStep.cancel _ rfl
  have s5 : TransferStep 50
      ⟨2, false, some (mkRec 1), false, 2, [mkRec 0], true, none⟩
      cexState :=
    TransferStep.consumerCancelled _ rfl rfl
  exact Relation.ReflTransGen.tail (Relation.ReflTransGen.tail
    (Relation.ReflTransGen.tail (Relation.ReflTransGen.tail
      (Relation.ReflTransGen.single s1) s2) s3) s4) s5

/-- C2 counterexample: the claim says `validatePair` fails whenever the
name of the destination descriptor is "iceberg" even when the source name differs,
but for a correctly-kinded mysql source and an iceberg-named destination the
code returns ok (the restriction fires only when both names are "iceberg"). -/
theorem c2_counterexample :
    ValidateConnectorPair ⟨"mysql", .source, "High-speed MySQL binlog reader", true, 8⟩
        ⟨"iceberg", .destination, "Iceberg sink", false, 1⟩ = .ok () ∧
    ("mysql" : String) ≠ "iceberg" :=
  ⟨rfl, by decide⟩

/-- C2 (amended): `ValidateConnectorPair` succeeds exactly when the source kind
is source, the destination kind is destination, and it is not the case that the
two names are equal and that common name is "iceberg"; in particular it fails
for every wrong-kind pair, and the iceberg restriction fires only when both
names equal "iceberg". -/
theorem c2_pairing_characterization (src dst : Connector) :
    ValidateConnectorPair src dst = .ok () ↔
      (src.type = ConnectorType.source ∧ dst.type = ConnectorType.destination ∧
        ¬(src.name = dst.name ∧ src.name = "iceberg")) := by
  unfold ValidateConnectorPair
  split_ifs with h1 h2 <;> simp <;> tauto

/-- C9: for every state of the pipeline store, `List` returns one entry per
stored pipeline definition (a permutation of the stored configs), sorted
ascending by name, and leaves the store unchanged. -/
theorem c9_list_sorted_complete (st : Store) :
    List.Sorted (fun a b : Config => a.name ≤ b.name) (Service.ListPipelines st).1 ∧
    ((Service.ListPipelines st).1).Perm (st.map Prod.snd) ∧
    (Service.ListPipelines st).2 = st := by
  refine ⟨?_, List.perm_insertionSort _ _, rfl⟩
  exact @List.sorted_insertionSort Config (fun a b => a.name ≤ b.name) _
    ⟨fun a b => le_total a.name b.name⟩ ⟨fun a b c => le_trans⟩ (st.map Prod.snd)

/-- C8: a create call whose pipeline name consists only of whitespace in the
sense of `unicode.IsSpace` (that is, `strings.TrimSpace` of the name is empty)
fails with the invalid-name error and leaves the store unchanged, inserting
nothing. -/
theorem c8_blank_name_rejected {reg : Registry} {st : Store} {cfg : Config}
    (h : cfg.name.toList.all goIsSpace = true) :
    Service.Create reg st cfg = (.error "pipeline name is required", st) := by
  have hn : validatePipelineName cfg.name = .error "pipeline name is required" := by
    unfold validatePipelineName
    rw [if_pos h]
  simp only [Service.Create, hn]

/-- C8 witness: a name made of a space, a tab, a vertical tab, a form feed, a
no-break space and an em space - all Go whitespace - is rejected with the
invalid-name error. -/
theorem c8_blank_name_rejected_witness :
    Service.Create NewRegistry [] ⟨" \t\u000B\u000C  ", "mysql", [], "postgres", []⟩
      = (.error "pipeline name is required", []) :=
  c8_blank_name_rejected (by decide)

/-- C1 counterexample: creating a pipeline with sourceType and destType both
"iceberg" (well-formed configs) does fail and the store stays empty, but the
error is the unknown-connector error - not an invalid-pairing error as the
claim states - because no iceberg destination is registered, so destination
resolution fails before the pairing check can run. -/
theorem c1_counterexample :
    Service.Create NewRegistry [] cfgIceIce
        = (.error "unknown destination connector iceberg", []) ∧
    (Service.Create NewRegistry [] cfgIceIce).1 ≠ .error "invalid connector pairing" ∧
    (Service.Create NewRegistry [] cfgIceIce).1 ≠ .error "iceberg cannot be a destination" ∧
    storeGet (Service.Create NewRegistry [] cfgIceIce).2 "ice-sync" = none := by
  have base : (Service.Create NewRegistry [] cfgIceIce).1
      = .error "unknown destination connector iceberg" := rfl
  refine ⟨rfl, ?_, ?_, rfl⟩
  · rw [base]
    intro h
    injection h with h
    exact absurd h (by decide)
  · rw [base]
    intro h
    injection h with h
    exact absurd h (by decide)

/-- C1 (amended): for every store and every create call with
sourceType = destType = "iceberg" and a non-blank name, create fails with the
unknown-connector error "unknown destination connector iceberg" (resolution of
the destination fails before the pairing check) and the store is unchanged, so
a subsequent list cannot include the new name. -/
theorem c1_iceberg_create_fails {st : Store} {cfg : Config}
    (hs : cfg.sourceType = "iceberg") (hd : cfg.destType = "iceberg")
    (hn : validatePipelineName cfg.name = .ok ()) :
    Service.Create NewRegistry st cfg
      = (.error "unknown destination connector iceberg", st) := by
  have hcf : connectorsFor NewRegistry cfg
      = .error "unknown destination connector iceberg" := by
    unfold connectorsFor
    rw [hs, hd]
    rfl
  simp only [Service.Create, hn, hcf]

/-- C1 witness: the iceberg/iceberg create fails on a non-empty store as well,
leaving the existing entries intact. -/
theorem c1_iceberg_create_fails_witness :
    Service.Create NewRegistry [("nightly-sync", cfgMP)] cfgIceIce
      = (.error "unknown destination connector iceberg", [("nightly-sync", cfgMP)]) :=
  c1_iceberg_create_fails rfl rfl rfl

/-- C7: a create call that passes the name check and the connector resolution
and pairing check, but whose source or destination configuration is missing a
required field, fails with that missing-field error; the store is unchanged and
the lookup under the pipeline name is exactly what it was before. -/
theorem c7_validation_precedes_persistence {reg : Registry} {st : Store} {cfg : Config}
    {src : SimpleSource} {dst : SimpleDestination} {e : String}
    (hn : validatePipelineName cfg.name = .ok ())
    (hres : connectorsFor reg cfg = .ok (src, dst))
    (hval : ensureRequiredFields src.required cfg.sourceConfig = .error e ∨
      (ensureRequiredFields src.required cfg.sourceConfig = .ok () ∧
        ensureRequiredFields dst.required cfg.destConfig = .error e)) :
    Service.Create reg st cfg = (.error e, st) ∧
    storeGet (Service.Create reg st cfg).2 cfg.name = storeGet st cfg.name := by
  have h : Service.Create reg st cfg = (.error e, st) := by
    rcases hval with h | ⟨hok, h⟩
    · simp only [Service.Create, hn, hres, h]
    · simp only [Service.Create, hn, hres, hok, h]
  exact ⟨h, by rw [h]⟩

/-- C7 witness: scenario C - a mysql source config missing "password" is
rejected with the error naming "password" and the empty store stays empty. -/
theorem c7_validation_precedes_persistence_witness :
    Service.Create NewRegistry [] cfgMissingPw
        = (.error "missing required config password", []) ∧
    storeGet (Service.Create NewRegistry [] cfgMissingPw).2 "s" = storeGet [] "s" :=
  c7_validation_precedes_persistence rfl rfl (Or.inl rfl)

/-- C3 counterexample: an execution of the mysql-to-postgres pipeline in which
the context is cancelled after exactly one record was forwarded to the load
stage, while the tee has already counted a second record it never forwards; the
returned run result reports records = 2 even though only k = 1 records entered
the load stage (and 1 < 50, the extraction total), refuting both the
records <= k bound and "the counter never reflects a record not forwarded". -/
theorem c3_counterexample :
    TransferReach 50 cexState ∧
    cexState.forwarded.length = 1 ∧
    cexState.cancelled = true ∧
    cexState.consumerResult = some (some "context canceled") ∧
    cexState.counter = 2 ∧
    RunOutcome NewRegistry [("nightly-sync", cfgMP)] "nightly-sync" true
      ⟨"nightly-sync", 2, "context canceled", true⟩ ∧
    ¬(2 ≤ 1) := by
  refine ⟨cexState_reach, rfl, rfl, rfl, rfl, ?_, by decide⟩
  exact RunOutcome.ran cfgMP
    ⟨⟨"mysql", .source, "High-speed MySQL binlog reader", true, 8⟩, dbFields, 50⟩
    ⟨⟨"postgres", .destination, "COPY protocol with conflict handling", true, 8⟩, dbFields⟩
    2 (some "context canceled") rfl rfl rfl rfl
    ⟨cexState, cexState_reach, rfl, rfl, rfl⟩

/-- C3 (amended): whenever the load stage of a run has returned, the record
count read from the tee counter is at most the number of records actually
forwarded to the load stage plus one (the single record the tee may have
accepted and counted without managing to forward it before cancellation), and
any error the load stage returns on cancellation is the non-empty context
error. -/
theorem c3_cancellation_count_bound {n : Nat} {s : TransferState} {err : Option String}
    (hr : TransferReach n s) (hc : s.consumerResult = some err) :
    s.counter ≤ s.forwarded.length + 1 ∧ ∀ e, err = some e → e ≠ "" := by
  constructor
  · have h := transfer_counter_split hr
    have hb : s.teeHold.toList.length ≤ 1 := by
      cases h' : s.teeHold <;> simp [h']
    omega
  · intro e he
    obtain ⟨-, -, -, -, -, -, h7⟩ := transferInv_reach hr
    subst he
    have h := (h7 e hc).2
    subst h
    decide

/-- C3 amended witness: the bound and error shape hold at the concrete
cancelled execution. -/
theorem c3_cancellation_count_bound_witness :
    cexState.counter ≤ cexState.forwarded.length + 1 ∧
    (∀ e, (some "context canceled" : Option String) = some e → e ≠ "") :=
  c3_cancellation_count_bound cexState_reach rfl

/-- C4: for every stored pipeline whose resolution succeeds and whose source
and destination configurations validate, a run whose context is never
cancelled returns records equal to the fixed sample size of the resolved source and
an empty error. -/
theorem c4_count_fidelity {reg : Registry} {st : Store} {name : String} {cfg : Config}
    {src : SimpleSource} {dst : SimpleDestination} {r : Result}
    (hget : storeGet st name = some cfg)
    (hres : connectorsFor reg cfg = .ok (src, dst))
    (hsrc : ensureRequiredFields src.required cfg.sourceConfig = .ok ())
    (hdst : ensureRequiredFields dst.required cfg.destConfig = .ok ())
    (hrun : RunOutcome reg st name false r) :
    r.records = src.sampleRecords ∧ r.error = "" := by
  cases hrun with
  | notFound h =>
      rw [hget] at h
      cases h
  | resolveErr cfg' e h1 h2 =>
      rw [hget] at h1
      injection h1 with h1
      subst h1
      rw [hres] at h2
      cases h2
  | extractErr cfg' src' dst' e h1 h2 h3 =>
      rw [hget] at h1
      injection h1 with h1
      subst h1
      rw [hres] at h2
      injection h2 with h2
      rw [Prod.mk.injEq] at h2
      obtain ⟨h2a, h2b⟩ := h2
      subst h2a
      rw [hsrc] at h3
      cases h3
  | loadValidateErr cfg' src' dst' e k h1 h2 h3 h4 h5 =>
      rw [hget] at h1
      injection h1 with h1
      subst h1
      rw [hres] at h2
      injection h2 with h2
      rw [Prod.mk.injEq] at h2
      obtain ⟨h2a, h2b⟩ := h2
      subst h2b
      rw [hdst] at h4
      cases h4
  | ran cfg' src' dst' records err h1 h2 h3 h4 htr =>
      rw [hget] at h1
      injection h1 with h1
      subst h1
      rw [hres] at h2
      injection h2 with h2
      rw [Prod.mk.injEq] at h2
      obtain ⟨h2a, h2b⟩ := h2
      subst h2a
      obtain ⟨s, hreach, hcons, hcount, hcanc⟩ := htr
      obtain ⟨herr, hcnt, -⟩ := transfer_uncancelled_final hreach hcons hcanc
      subst herr
      exact ⟨by rw [show records = s.counter from hcount.symm, hcnt], rfl⟩

/-- C4 witness: scenario A - the stored "nightly-sync" pipeline from the mysql
source (sample size 50) to the postgres destination runs to completion with
records = 50 and an empty error. -/
theorem c4_count_fidelity_witness :
    (⟨"nightly-sync", 50, errString none, true⟩ : Result).records = 50 ∧
    (⟨"nightly-sync", 50, errString none, true⟩ : Result).error = "" := by
  have hrun : RunOutcome NewRegistry [("nightly-sync", cfgMP)] "nightly-sync" false
      ⟨"nightly-sync", 50, errString none, true⟩ :=
    RunOutcome.ran cfgMP
      ⟨⟨"mysql", .source, "High-speed MySQL binlog reader", true, 8⟩, dbFields, 50⟩
      ⟨⟨"postgres", .destination, "COPY protocol with conflict handling", true, 8⟩, dbFields⟩
      50 none rfl rfl rfl rfl (transfer_completes 50)
  have hget : storeGet [("nightly-sync", cfgMP)] "nightly-sync" = some cfgMP := rfl
  have hres : connectorsFor NewRegistry cfgMP
      = .ok (⟨⟨"mysql", .source, "High-speed MySQL binlog reader", true, 8⟩, dbFields, 50⟩,
        ⟨⟨"postgres", .destination, "COPY protocol with conflict handling", true, 8⟩,
          dbFields⟩) := rfl
  exact c4_count_fidelity hget hres rfl rfl hrun

/-- C5: for every registry, store, pipeline name and cancellation status, run
always produces some run result (it never raises an error past the execution
engine), and when the name is not stored every possible result has zero
records, error "pipeline not found" and a stamped finish time; the store is
only read, never written, by run. -/
theorem c5_run_total_not_found (reg : Registry) (st : Store) (name : String) (b : Bool) :
    (∃ r, RunOutcome reg st name b r) ∧
    (storeGet st name = none → ∀ r, RunOutcome reg st name b r →
      r.records = 0 ∧ r.error = "pipeline not found" ∧ r.finishedAt = true) := by
  constructor
  · cases hg : storeGet st name with
    | none => exact ⟨_, RunOutcome.notFound hg⟩
    | some cfg =>
      cases hcf : connectorsFor reg cfg with
      | error e => exact ⟨_, RunOutcome.resolveErr cfg e hg hcf⟩
      | ok p =>
        obtain ⟨src, dst⟩ := p
        cases hsv : ensureRequiredFields src.required cfg.sourceConfig with
        | error e => exact ⟨_, RunOutcome.extractErr cfg src dst e hg hcf hsv⟩
        | ok u =>
          cases u
          cases hdv : ensureRequiredFields dst.required cfg.destConfig with
          | error e =>
            exact ⟨_, RunOutcome.loadValidateErr cfg src dst e 0 hg hcf hsv hdv (by omega)⟩
          | ok u' =>
            cases u'
            cases b with
            | false =>
              exact ⟨_, RunOutcome.ran cfg src dst src.sampleRecords none hg hcf hsv hdv
                (transfer_completes src.sampleRecords)⟩
            | true =>
              exact ⟨_, RunOutcome.ran cfg src dst 0 (some "context canceled") hg hcf hsv hdv
                (transfer_cancelled_exists src.sampleRecords)⟩
  · intro hnone r hrun
    cases hrun with
    | notFound h => exact ⟨rfl, rfl, rfl⟩
    | resolveErr cfg e h1 h2 => rw [hnone] at h1; cases h1
    | extractErr cfg src dst e h1 h2 h3 => rw [hnone] at h1; cases h1
    | loadValidateErr cfg src dst e k h1 h2 h3 h4 h5 => rw [hnone] at h1; cases h1
    | ran cfg src dst records err h1 h2 h3 h4 htr => rw [hnone] at h1; cases h1

/-- C5 witness: running the never-created name "ghost" on the empty store
yields records = 0, error "pipeline not found" and a stamped finish time. -/
theorem c5_run_total_not_found_witness :
    (⟨"ghost", 0, "pipeline not found", true⟩ : Result).records = 0 ∧
    (⟨"ghost", 0, "pipeline not found", true⟩ : Result).error = "pipeline not found" ∧
    (⟨"ghost", 0, "pipeline not found", true⟩ : Result).finishedAt = true :=
  (c5_run_total_not_found NewRegistry [] "ghost" false).2 rfl _ (RunOutcome.notFound rfl)

/-- C6: for every stored pipeline whose source and destination names both
resolve but whose descriptors fail the pairing validation, every possible run
result carries exactly that pairing error with zero records and a stamped
finish time - the resolve stage re-runs `validatePair` and no extract or load
outcome is possible. -/
theorem c6_resolve_revalidates {reg : Registry} {st : Store} {name : String} {cfg : Config}
    {src : SimpleSource} {dst : SimpleDestination} {e : String} {b : Bool} {r : Result}
    (hget : storeGet st name = some cfg)
    (hsrc : SourceByName reg cfg.sourceType = .ok src)
    (hdst : DestinationByName reg cfg.destType = .ok dst)
    (hpair : ValidateConnectorPair src.meta dst.meta = .error e)
    (hrun : RunOutcome reg st name b r) :
    r = ⟨name, 0, e, true⟩ := by
  have hcf : connectorsFor reg cfg = .error e := by
    unfold connectorsFor
    simp only [hsrc, hdst, hpair]
  cases hrun with
  | notFound h =>
      rw [hget] at h
      cases h
  | resolveErr cfg' e' h1 h2 =>
      rw [hget] at h1
      injection h1 with h1
      subst h1
      rw [hcf] at h2
      injection h2 with h2
      subst h2
      rfl
  | extractErr cfg' src' dst' e' h1 h2 h3 =>
      rw [hget] at h1
      injection h1 with h1
      subst h1
      rw [hcf] at h2
      cases h2
  | loadValidateErr cfg' src' dst' e' k h1 h2 h3 h4 h5 =>
      rw [hget] at h1
      injection h1 with h1
      subst h1
      rw [hcf] at h2
      cases h2
  | ran cfg' src' dst' records err h1 h2 h3 h4 htr =>
      rw [hget] at h1
      injection h1 with h1
      subst h1
      rw [hcf] at h2
      cases h2

/-- C6 witness: on a registry that does hold an iceberg destination, a stored
iceberg-to-iceberg pipeline run resolves both sides and then fails the
re-validated pairing with "iceberg cannot be a destination", zero records. -/
theorem c6_resolve_revalidates_witness :
    (⟨"ice", 0, "iceberg cannot be a destination", true⟩ : Result)
      = ⟨"ice", 0, "iceberg cannot be a destination", true⟩ := by
  have hget : storeGet [("ice", icebergCfg)] "ice" = some icebergCfg := rfl
  have hrun : RunOutcome icebergDualRegistry [("ice", icebergCfg)] "ice" false
      ⟨"ice", 0, "iceberg cannot be a destination", true⟩ :=
    RunOutcome.resolveErr icebergCfg "iceberg cannot be a destination" hget rfl
  have hsrc : SourceByName icebergDualRegistry icebergCfg.sourceType
      = .ok ⟨⟨"iceberg", .source, "Snapshot reads over Apache Iceberg metadata", false, 6⟩,
        ["catalog", "table", "warehouse"], 30⟩ := rfl
  have hdst : DestinationByName icebergDualRegistry icebergCfg.destType
      = .ok ⟨⟨"iceberg", .destination, "direct Iceberg writes", false, 6⟩,
        ["catalog", "table", "warehouse"]⟩ := rfl
  exact c6_resolve_revalidates hget hsrc hdst rfl hrun

/-- C10: every extraction that runs to completion without cancellation forwards
exactly the deterministic sequence `fakeRecords n` - so any two uncancelled
runs forward identical sequences - and that sequence has length `n` with the
record at index i carrying id i+1 and payload "record-(i+1)". -/
theorem c10_extraction_deterministic {n : Nat} {s : TransferState} {err : Option String}
    (hr : TransferReach n s) (hc : s.consumerResult = some err)
    (hnc : s.cancelled = false) :
    s.forwarded = fakeRecords n ∧
    (fakeRecords n).length = n ∧
    (∀ i, i < n → (fakeRecords n)[i]? = some ⟨i + 1, "record-" ++ toString (i + 1)⟩) := by
  obtain ⟨-, -, hfwd⟩ := transfer_uncancelled_final hr hc hnc
  exact ⟨hfwd, fakeRecords_length n, fun i hi => fakeRecords_getElem? hi⟩

/-- C10 witness: the completed two-record extraction forwards exactly
[record 1, record 2]. -/
theorem c10_extraction_deterministic_witness :
    (⟨2, true, none, true, 2, fakeRecords 2, false, some none⟩ : TransferState).forwarded
        = fakeRecords 2 ∧
    (fakeRecords 2).length = 2 ∧
    (∀ i, i < 2 → (fakeRecords 2)[i]? = some ⟨i + 1, "record-" ++ toString (i + 1)⟩) :=
  c10_extraction_deterministic (reach_done 2) rfl rfl
